import Mathlib

/-!
Shallow embedding of the Kakarot test harness's entry-point invocation
protocol (`tests/utils/cairo.py`, `run_program_entrypoint`) and the
resources statistics script (`scripts/check_resources.py`), together with
theorems settling the specification claims about them.

The Cairo VM runtime (`CairoRunner`, segments, builtin runners, the
stepping loop internals) is an external collaborator of this repository;
it is embedded through the narrow interface the spec describes (segment
allocation, identifier resolution, register initialization, run-to-pc,
step counting), with the VM's own stepping behaviour kept as an opaque
parameter.
-/

namespace Kakarot

/-- A relocatable machine address: (segment index, offset). -/
abbrev Addr := Nat × Nat

/-- A machine word in VM memory: either a field element or a relocatable
address (segment pointers such as the return frame pointer and the end
sentinel are addresses). -/
inductive Word where
  | felt (n : Nat)
  | addr (seg : Nat) (off : Nat)
deriving DecidableEq, Repr

/-- The VM's segment manager: `segments.add()` returns a fresh segment's
base address (offset 0) and bumps the counter. -/
structure SegmentManager where
  nextSegment : Nat
deriving DecidableEq, Repr

/-- `segments.add()`: allocate a fresh memory segment, returning its base
address. -/
def SegmentManager.add (sm : SegmentManager) : Addr × SegmentManager :=
  ((sm.nextSegment, 0), ⟨sm.nextSegment + 1⟩)

/-- A Python value, as far as the harness's `program_input or {}` idiom
needs: truthiness is what Python's `or` tests. -/
inductive PyValue where
  | none
  | bool (b : Bool)
  | int (n : Int)
  | str (s : String)
  | dict (entries : List (String × PyValue))
  | list (xs : List PyValue)

/-- Python truthiness of a `PyValue`: `None`, `False`, `0`, `""`, `{}`
and `[]` are falsy, everything else truthy. -/
def PyValue.truthy : PyValue → Bool
  | .none => false
  | .bool b => b
  | .int n => n != 0
  | .str s => s != ""
  | .dict es => !es.isEmpty
  | .list xs => !xs.isEmpty

/-- Python's `a or b`: returns `a` when `a` is truthy, else `b`. -/
def pyOr (a b : PyValue) : PyValue :=
  if a.truthy then a else b

/-- First-match association-list lookup, mirroring Python `dict.get`
(keys are unique in a Python dict, so first match is the match). -/
def assocLookup {α β : Type} [DecidableEq α] : List (α × β) → α → Option β
  | [], _ => Option.none
  | (k, v) :: rest, key => if k = key then Option.some v else assocLookup rest key

/-- A compiled Cairo program, as the harness reads it: the ordered list
of declared builtin names, the identifier table mapping full scoped
names to code offsets (`.pc`), and the program's code words. -/
structure Program where
  builtins : List String
  identifiers : List (List String × Nat)
  data : List Word

/-- `program.identifiers.get_by_full_name(ScopedName(path))`, returning
the identifier's `pc` when present. -/
def get_by_full_name (ids : List (List String × Nat)) (path : List String) : Option Nat :=
  assocLookup ids path

/-- The VM's register/step state, as the harness's narrow interface sees
it: program counter, allocation pointer, frame pointer and the current
step count. -/
structure VMState where
  pc : Addr
  ap : Addr
  fp : Addr
  current_step : Nat
deriving DecidableEq, Repr

/-- The external collaborators of one invocation: the runner's builtin
runners (each exposing its `initial_stack()` contribution), the VM's
opaque single-step function (`none` on a VM-level fault), the step
budget, the trace-padding ratio, and the output reader backing
`print_output`. -/
structure VMEnv where
  builtin_runners : List (String × List Word)
  stepFn : VMState → Option VMState
  fuel : Nat
  trace_ratio : Nat
  outputFn : VMState → List Word

/-- The loop body of lines 17-23: one builtin's contribution to the
initial stack. `runner.builtin_runners.get(f"{name}_builtin")`; if the
runner is missing the assert demands `allow_missing_builtins`, and the
contribution is the single placeholder word `0`; otherwise it is the
runner's `initial_stack()`. `none` models the assert failing. -/
def builtin_contribution (allow_missing_builtins : Bool)
    (runners : List (String × List Word)) (builtin_name : String) : Option (List Word) :=
  match assocLookup runners (builtin_name ++ "_builtin") with
  | Option.some contribution => Option.some contribution
  | Option.none =>
      if allow_missing_builtins then Option.some [Word.felt 0] else Option.none

/-- The whole loop of lines 16-23: the builtin-derived part of the stack,
one contribution per declared builtin in declaration order. -/
def buildBuiltinStack (allow_missing_builtins : Bool)
    (runners : List (String × List Word)) : List String → Option (List Word)
  | [] => Option.some []
  | b :: rest =>
    match builtin_contribution allow_missing_builtins runners b with
    | Option.none => Option.none
    | Option.some c =>
        (buildBuiltinStack allow_missing_builtins runners rest).map (fun s => c ++ s)

/-- `runner.load_data(base, data)`: the memory writes of `data` laid out
contiguously from `base`. -/
def load_data (base : Addr) (data : List Word) : List (Addr × Word) :=
  (List.range data.length).zip data |>.map (fun iw => ((base.1, base.2 + iw.1), iw.2))

/-- `runner.run_until_pc(target)`: step the VM until its program counter
equals the target, within the given step budget; `none` models a VM
fault or exhaustion. -/
def run_until_pc (stepFn : VMState → Option VMState) (target : Addr) :
    Nat → VMState → Option VMState
  | 0, s => if s.pc = target then Option.some s else Option.none
  | fuel + 1, s =>
      if s.pc = target then Option.some s
      else (stepFn s).bind (run_until_pc stepFn target fuel)

/-- Modelled from the spec: `CairoRunner.end_run` is an external
collaborator (not part of this repository's sources); per the spec's
Finalizer contract it decides "whether to pad the execution trace to a
builtin-required boundary length (a fixed per-builtin ratio/alignment
requirement) — this is configurable and, when disabled, is skipped
entirely". Padding extends the step count to the next multiple of the
ratio; `disable_trace_padding = true` skips it entirely. -/
def end_run (disable_trace_padding : Bool) (ratio : Nat) (vm : VMState) : VMState :=
  if disable_trace_padding then vm
  else { vm with current_step :=
          if ratio = 0 then vm.current_step
          else vm.current_step + (ratio - vm.current_step % ratio) % ratio }

/-- The error taxonomy of one invocation, as the spec names it. -/
inductive RunError where
  | missingBuiltin
  | resolutionError
  | vmFault
deriving DecidableEq, Repr

/-- A failed invocation: which error surfaced, and the memory writes the
runner had performed before the failure surfaced (what a caller could
observe of the abandoned runner). -/
structure RunFailure where
  error : RunError
  writes : List (Addr × Word)

/-- A completed invocation: the constructed stack, the fresh return
frame pointer and end sentinel addresses, the segment bases, the initial
registers, the memory writes, the bound `program_input` hint value, the
VM state when the program counter reached the sentinel, the recorded
`original_steps`, the VM state after `end_run`, and the printed output. -/
structure RunOutcome where
  stack : List Word
  return_fp : Addr
  end_addr : Addr
  program_base : Addr
  execution_base : Addr
  initial_pc : Addr
  initial_ap : Addr
  initial_fp : Addr
  writes : List (Addr × Word)
  program_input_binding : PyValue
  vm_at_sentinel : VMState
  original_steps : Nat
  vm_final : VMState
  output : List Word

/-- A VM instance as `run_program_entrypoint` constructs one: a segment
manager and a memory (write log). -/
structure VMInstance where
  segments : SegmentManager
  memory : List (Addr × Word)

/-- A freshly constructed VM instance: `CairoRunner(..., memory=MemoryDict())`
with no segments allocated and no cells written. -/
def fresh_instance : VMInstance := ⟨⟨0⟩, []⟩

/-- `run_program_entrypoint` run against an explicit VM instance.
Mirrors `tests/utils/cairo.py` line by line:
`initialize_segments` allocates the program and execution bases; the
builtin loop builds the builtin-derived stack (failing the assert on a
missing builtin when they are disallowed); two fresh segments give the
return frame pointer and the end sentinel, appended to the stack; the
entry point is resolved as `ScopedName(["__main__", entrypoint])` in the
identifier table (a resolution failure surfaces before `initialize_state`
runs); `initialize_state` loads the program at the program base and the
stack at the execution base and sets the initial pc to the resolved code
address; `initial_fp = initial_ap = execution_base + len(stack)`;
`initialize_vm` binds `program_input or {}` into the hint locals;
`run_until_pc(end)` drives the VM to the sentinel; `original_steps`
records the step count reached; `end_run(disable_trace_padding=False)`
pads the trace; `print_output` surfaces the output. -/
def run_on_instance (env : VMEnv) (inst : VMInstance)
    (allow_missing_builtins : Bool) (program : Program) (entrypoint : String)
    (program_input : PyValue) : Except RunFailure RunOutcome :=
  let (program_base, sm1) := inst.segments.add
  let (execution_base, sm2) := sm1.add
  match buildBuiltinStack allow_missing_builtins env.builtin_runners program.builtins with
  | Option.none => Except.error ⟨RunError.missingBuiltin, inst.memory⟩
  | Option.some builtin_stack =>
    let (return_fp, sm3) := sm2.add
    let (end_addr, _sm4) := sm3.add
    let stack := builtin_stack ++ [Word.addr return_fp.1 return_fp.2,
                                   Word.addr end_addr.1 end_addr.2]
    match get_by_full_name program.identifiers ["__main__", entrypoint] with
    | Option.none => Except.error ⟨RunError.resolutionError, inst.memory⟩
    | Option.some pc_offset =>
      let writes := inst.memory ++ load_data program_base program.data
                      ++ load_data execution_base stack
      let initial_pc : Addr := (program_base.1, program_base.2 + pc_offset)
      let initial_ap : Addr := (execution_base.1, execution_base.2 + stack.length)
      let initial_fp := initial_ap
      let program_input_binding := pyOr program_input (PyValue.dict [])
      let vm0 : VMState := ⟨initial_pc, initial_ap, initial_fp, 0⟩
      match run_until_pc env.stepFn end_addr env.fuel vm0 with
      | Option.none => Except.error ⟨RunError.vmFault, writes⟩
      | Option.some vm_at_sentinel =>
        let original_steps := vm_at_sentinel.current_step
        let vm_final := end_run false env.trace_ratio vm_at_sentinel
        let output := env.outputFn vm_final
        Except.ok ⟨stack, return_fp, end_addr, program_base, execution_base,
                   initial_pc, initial_ap, initial_fp, writes,
                   program_input_binding, vm_at_sentinel, original_steps,
                   vm_final, output⟩

/-- `run_program_entrypoint(program, entrypoint, program_input)`: builds
a fresh `CairoRunner` with `allow_missing_builtins=False` and drives the
invocation on it. -/
def run_program_entrypoint (env : VMEnv) (program : Program)
    (entrypoint : String) (program_input : PyValue) : Except RunFailure RunOutcome :=
  run_on_instance env fresh_instance false program entrypoint program_input

/-! ## The statistics script (`scripts/check_resources.py`) -/

/-- One row of the concatenated resources data: its `head_branch` and
`test` name (the dedup/grouping keys) and its numeric measurement
columns. -/
structure ResourceRow where
  head_branch : String
  test : String
  cols : List Rat
deriving DecidableEq

/-- The dedup key of a row: the `["head_branch", "test"]` pair. -/
def rowKey (r : ResourceRow) : String × String := (r.head_branch, r.test)

/-- `pd.read_csv(...).assign(head_branch=...)`: tag every row of one
CSV with its branch. -/
def assign_head_branch (branch : String) (csv : List (String × List Rat)) :
    List ResourceRow :=
  csv.map (fun tc => ⟨branch, tc.1, tc.2⟩)

/-- `pd.concat(resources)`: the rows of all branch CSVs, in order. -/
def concat_resources (csvs : List (String × List (String × List Rat))) :
    List ResourceRow :=
  (csvs.map (fun bc => assign_head_branch bc.1 bc.2)).flatten

/-- The number of rows carrying a given `(head_branch, test)` pair. -/
def keyCount (rows : List ResourceRow) (k : String × String) : Nat :=
  (rows.filter (fun r => decide (rowKey r = k))).length

/-- `.drop_duplicates(["head_branch", "test"], keep=False)`: keep only
the rows whose `(head_branch, test)` pair occurs exactly once in the
whole data; every row of a duplicated pair is dropped. -/
def drop_duplicates_keep_false (rows : List ResourceRow) : List ResourceRow :=
  rows.filter (fun r => decide (keyCount rows (rowKey r) = 1))

/-- `all_resources`: the concatenated data after dropping duplicated
`(head_branch, test)` pairs (the `set_index` is bookkeeping only). -/
def all_resources (csvs : List (String × List (String × List Rat))) :
    List ResourceRow :=
  drop_duplicates_keep_false (concat_resources csvs)

/-- Mean of the `j`-th measurement column over a list of rows. -/
def col_mean (rs : List ResourceRow) (j : Nat) : Rat :=
  ((rs.map (fun r => r.cols.getD j 0)).sum) / (rs.length : Rat)

/-- `all_resources.groupby(level="head_branch").agg("mean")`: the
per-branch mean of the `j`-th column, computed over the deduplicated
rows of that branch. -/
def average_summary (rows : List ResourceRow) (branch : String) (j : Nat) : Rat :=
  col_mean ((drop_duplicates_keep_false rows).filter
    (fun r => decide (r.head_branch = branch))) j

/-! ## Helper definitions and lemmas -/

/-- The list of per-builtin contributions (not yet concatenated), one
per declared builtin in declaration order; `none` when some builtin's
contribution fails. -/
def contributionsOf (allow_missing_builtins : Bool)
    (runners : List (String × List Word)) : List String → Option (List (List Word))
  | [] => Option.some []
  | b :: rest =>
    match builtin_contribution allow_missing_builtins runners b with
    | Option.none => Option.none
    | Option.some c =>
        (contributionsOf allow_missing_builtins runners rest).map (fun cs => c :: cs)

/-! ### Concrete fixtures used by witness theorems -/

/-- A concrete set of builtin runners: a `range_check` runner whose
`initial_stack()` is the single pointer `1000` (the spec's scenario). -/
def sampleRunners : List (String × List Word) := [("range_check_builtin", [Word.felt 1000])]

/-- A concrete VM step function: one step jumps straight to the end
sentinel `(3, 0)` allocated by a fresh runner, counting the step. -/
def sampleStep : VMState → Option VMState :=
  fun s => Option.some { s with pc := (3, 0), current_step := s.current_step + 1 }

/-- A concrete collaborator environment around `sampleRunners` and
`sampleStep`, with trace ratio 8 and empty output. -/
def sampleEnv : VMEnv := ⟨sampleRunners, sampleStep, 5, 8, fun _ => []⟩

/-- A concrete program: declares `range_check`, has `__main__.main` at
code offset 0, and one code word. -/
def sampleProgram : Program := ⟨["range_check"], [(["__main__", "main"], 0)], [Word.felt 42]⟩

/-- A concrete program declaring the builtin `output`, for which
`sampleRunners` has no runner. -/
def missingProgram : Program := ⟨["output"], [(["__main__", "main"], 0)], []⟩

/-- Concrete resources data: the test `t` measured twice on branch
`main` (a duplicated pair), and `u` once. -/
def sampleRows : List ResourceRow :=
  [⟨"main", "t", [1]⟩, ⟨"main", "t", [2]⟩, ⟨"main", "u", [3]⟩]

theorem buildBuiltinStack_eq (allow : Bool) (rs : List (String × List Word)) :
    ∀ bs : List String,
      buildBuiltinStack allow rs bs = (contributionsOf allow rs bs).map List.flatten := by
  intro bs
  induction bs with
  | nil => rfl
  | cons b rest ih =>
    rw [buildBuiltinStack, contributionsOf]
    cases hc : builtin_contribution allow rs b with
    | none => rfl
    | some c =>
      rw [ih]
      cases hr : contributionsOf allow rs rest with
      | none => rfl
      | some cs => rfl

theorem run_until_pc_pc (f : VMState → Option VMState) (t : Addr) :
    ∀ (n : Nat) (s s' : VMState), run_until_pc f t n s = Option.some s' → s'.pc = t := by
  intro n
  induction n with
  | zero =>
    intro s s' h
    rw [run_until_pc] at h
    by_cases hp : s.pc = t
    · rw [if_pos hp] at h
      cases h
      exact hp
    · rw [if_neg hp] at h
      cases h
  | succ n ih =>
    intro s s' h
    rw [run_until_pc] at h
    by_cases hp : s.pc = t
    · rw [if_pos hp] at h
      cases h
      exact hp
    · rw [if_neg hp] at h
      cases hs : f s with
      | none => rw [hs] at h; cases h
      | some s1 =>
        rw [hs, Option.some_bind] at h
        exact ih s1 s' h

theorem run_program_entrypoint_ok (env : VMEnv) (p : Program) (e : String)
    (i : PyValue) (out : RunOutcome)
    (h : run_program_entrypoint env p e i = Except.ok out) :
    ∃ bstack pc_offset vm_end,
      buildBuiltinStack false env.builtin_runners p.builtins = Option.some bstack ∧
      get_by_full_name p.identifiers ["__main__", e] = Option.some pc_offset ∧
      run_until_pc env.stepFn (3, 0) env.fuel
        ⟨(0, 0 + pc_offset), (1, 0 + (bstack ++ [Word.addr 2 0, Word.addr 3 0]).length),
         (1, 0 + (bstack ++ [Word.addr 2 0, Word.addr 3 0]).length), 0⟩ = Option.some vm_end ∧
      out = { stack := bstack ++ [Word.addr 2 0, Word.addr 3 0],
              return_fp := (2, 0), end_addr := (3, 0),
              program_base := (0, 0), execution_base := (1, 0),
              initial_pc := (0, 0 + pc_offset),
              initial_ap := (1, 0 + (bstack ++ [Word.addr 2 0, Word.addr 3 0]).length),
              initial_fp := (1, 0 + (bstack ++ [Word.addr 2 0, Word.addr 3 0]).length),
              writes := [] ++ load_data (0, 0) p.data
                ++ load_data (1, 0) (bstack ++ [Word.addr 2 0, Word.addr 3 0]),
              program_input_binding := pyOr i (PyValue.dict []),
              vm_at_sentinel := vm_end,
              original_steps := vm_end.current_step,
              vm_final := end_run false env.trace_ratio vm_end,
              output := env.outputFn (end_run false env.trace_ratio vm_end) } := by
  unfold run_program_entrypoint run_on_instance at h
  simp only [fresh_instance, SegmentManager.add] at h
  split at h
  · exact Except.noConfusion h
  · split at h
    · exact Except.noConfusion h
    · split at h
      · exact Except.noConfusion h
      · rename_i x1 bstack hb x2 pc_offset hr x3 vm_end hv
        exact ⟨bstack, pc_offset, vm_end, hb, hr, hv, (Except.ok.inj h).symm⟩

theorem run_program_entrypoint_missing (env : VMEnv) (p : Program) (e : String)
    (i : PyValue)
    (h : buildBuiltinStack false env.builtin_runners p.builtins = Option.none) :
    run_program_entrypoint env p e i = Except.error ⟨RunError.missingBuiltin, []⟩ := by
  unfold run_program_entrypoint run_on_instance
  simp only [fresh_instance, SegmentManager.add, h]

theorem run_program_entrypoint_resolution (env : VMEnv) (p : Program) (e : String)
    (i : PyValue) (bstack : List Word)
    (hb : buildBuiltinStack false env.builtin_runners p.builtins = Option.some bstack)
    (hr : get_by_full_name p.identifiers ["__main__", e] = Option.none) :
    run_program_entrypoint env p e i = Except.error ⟨RunError.resolutionError, []⟩ := by
  unfold run_program_entrypoint run_on_instance
  simp only [fresh_instance, SegmentManager.add, hb, hr]

theorem buildBuiltinStack_of_missing (rs : List (String × List Word)) :
    ∀ (bs : List String) (b : String), b ∈ bs →
      assocLookup rs (b ++ "_builtin") = Option.none →
      buildBuiltinStack false rs bs = Option.none := by
  intro bs
  induction bs with
  | nil => intro b hb; cases hb
  | cons c rest ih =>
    intro b hb hmiss
    rw [buildBuiltinStack]
    cases hc : builtin_contribution false rs c with
    | none => rfl
    | some w =>
      cases hb with
      | head =>
        rw [builtin_contribution, hmiss] at hc
        simp at hc
      | tail _ htail =>
        rw [ih b htail hmiss]
        rfl

theorem buildBuiltinStack_total (allow : Bool) (rs : List (String × List Word)) :
    ∀ bs : List String,
      (∀ b ∈ bs, (assocLookup rs (b ++ "_builtin")).isSome) →
      ∃ s, buildBuiltinStack allow rs bs = Option.some s := by
  intro bs
  induction bs with
  | nil => intro _; exact ⟨[], rfl⟩
  | cons c rest ih =>
    intro hall
    obtain ⟨s, hs⟩ := ih (fun b hb => hall b (List.mem_cons_of_mem c hb))
    have hc := hall c (List.mem_cons_self c rest)
    cases hl : assocLookup rs (c ++ "_builtin") with
    | none => rw [hl] at hc; cases hc
    | some w =>
      refine ⟨w ++ s, ?_⟩
      rw [buildBuiltinStack, builtin_contribution, hl, hs]
      rfl

/-! ## Claim theorems -/

/-- C1: For every program declaring builtins B1..Bn, the initial Stack
built by `run_program_entrypoint` is the concatenation of one
contribution per declared builtin, in declaration order, followed by the
return-frame-pointer word and then the end-sentinel word, so its length
is exactly the sum of the builtin contribution lengths plus 2. -/
theorem claim_C1_stack_shape (env : VMEnv) (p : Program) (e : String) (i : PyValue)
    (out : RunOutcome) (h : run_program_entrypoint env p e i = Except.ok out) :
    ∃ cs, contributionsOf false env.builtin_runners p.builtins = Option.some cs ∧
      out.stack = cs.flatten ++ [Word.addr out.return_fp.1 out.return_fp.2,
                                 Word.addr out.end_addr.1 out.end_addr.2] ∧
      out.stack.length = (cs.map List.length).sum + 2 := by
  obtain ⟨bstack, pcOff, vmEnd, hb, hr, hv, hout⟩ := run_program_entrypoint_ok env p e i out h
  rw [buildBuiltinStack_eq] at hb
  cases hc : contributionsOf false env.builtin_runners p.builtins with
  | none => rw [hc] at hb; cases hb
  | some cs =>
    rw [hc] at hb
    have hbs : bstack = cs.flatten := by
      simpa using hb.symm
    subst hout
    subst hbs
    refine ⟨cs, rfl, rfl, ?_⟩
    simp [List.length_append, List.length_flatten]

/-- C1 witness: the theorem applied to the spec's concrete scenario
(`range_check` contributing `[1000]`). -/
theorem claim_C1_witness :
    ∃ out, run_program_entrypoint sampleEnv sampleProgram "main" PyValue.none = Except.ok out ∧
      ∃ cs, contributionsOf false sampleEnv.builtin_runners sampleProgram.builtins
              = Option.some cs ∧
        out.stack = cs.flatten ++ [Word.addr out.return_fp.1 out.return_fp.2,
                                   Word.addr out.end_addr.1 out.end_addr.2] ∧
        out.stack.length = (cs.map List.length).sum + 2 :=
  ⟨_, rfl, claim_C1_stack_shape sampleEnv sampleProgram "main" PyValue.none _ rfl⟩

/-- C2: After initialization, the initial program counter equals the
resolved entry point's code address, and the initial frame pointer and
allocation pointer both equal the execution-segment base plus the length
of the constructed Stack. -/
theorem claim_C2_initial_registers (env : VMEnv) (p : Program) (e : String)
    (i : PyValue) (out : RunOutcome)
    (h : run_program_entrypoint env p e i = Except.ok out) :
    ∃ pc_offset, get_by_full_name p.identifiers ["__main__", e] = Option.some pc_offset ∧
      out.initial_pc = (out.program_base.1, out.program_base.2 + pc_offset) ∧
      out.initial_ap = (out.execution_base.1, out.execution_base.2 + out.stack.length) ∧
      out.initial_fp = out.initial_ap := by
  obtain ⟨bstack, pcOff, vmEnd, hb, hr, hv, hout⟩ := run_program_entrypoint_ok env p e i out h
  subst hout
  exact ⟨pcOff, hr, rfl, rfl, rfl⟩

/-- C2 witness: the theorem applied to the concrete scenario. -/
theorem claim_C2_witness :
    ∃ out, run_program_entrypoint sampleEnv sampleProgram "main" PyValue.none = Except.ok out ∧
      ∃ pc_offset,
        get_by_full_name sampleProgram.identifiers ["__main__", "main"]
          = Option.some pc_offset ∧
        out.initial_pc = (out.program_base.1, out.program_base.2 + pc_offset) ∧
        out.initial_ap = (out.execution_base.1, out.execution_base.2 + out.stack.length) ∧
        out.initial_fp = out.initial_ap :=
  ⟨_, rfl, claim_C2_initial_registers sampleEnv sampleProgram "main" PyValue.none _ rfl⟩

/-- C3: The last element of the constructed Stack equals the end
sentinel's address, and every successful run ends (at the point the
driver stops stepping) with the program counter equal to that same
end-sentinel address. -/
theorem claim_C3_end_sentinel (env : VMEnv) (p : Program) (e : String)
    (i : PyValue) (out : RunOutcome)
    (h : run_program_entrypoint env p e i = Except.ok out) :
    out.stack.getLast? = Option.some (Word.addr out.end_addr.1 out.end_addr.2) ∧
    out.vm_at_sentinel.pc = out.end_addr := by
  obtain ⟨bstack, pcOff, vmEnd, hb, hr, hv, hout⟩ := run_program_entrypoint_ok env p e i out h
  subst hout
  constructor
  · rw [show bstack ++ [Word.addr 2 0, Word.addr 3 0]
        = (bstack ++ [Word.addr 2 0]) ++ [Word.addr 3 0] by simp]
    exact List.getLast?_concat _
  · exact run_until_pc_pc env.stepFn (3, 0) env.fuel _ vmEnd hv

/-- C3 witness: the theorem applied to the concrete scenario. -/
theorem claim_C3_witness :
    ∃ out, run_program_entrypoint sampleEnv sampleProgram "main" PyValue.none = Except.ok out ∧
      (out.stack.getLast? = Option.some (Word.addr out.end_addr.1 out.end_addr.2) ∧
       out.vm_at_sentinel.pc = out.end_addr) :=
  ⟨_, rfl, claim_C3_end_sentinel sampleEnv sampleProgram "main" PyValue.none _ rfl⟩

/-- C4: With missing builtins disallowed (as `run_program_entrypoint`
hardcodes), a declared builtin with no corresponding runner makes the
invocation fail with the configuration error (the "Missing builtin."
assert), before any memory write occurs and with no run attempted. -/
theorem claim_C4_missing_builtin (env : VMEnv) (p : Program) (e : String)
    (i : PyValue) (b : String) (hmem : b ∈ p.builtins)
    (hmiss : assocLookup env.builtin_runners (b ++ "_builtin") = Option.none) :
    ∃ f, run_program_entrypoint env p e i = Except.error f ∧
      f.error = RunError.missingBuiltin ∧ f.writes = [] :=
  ⟨⟨RunError.missingBuiltin, []⟩,
    run_program_entrypoint_missing env p e i
      (buildBuiltinStack_of_missing env.builtin_runners p.builtins b hmem hmiss),
    rfl, rfl⟩

/-- C4 witness: the program declaring `output` with no `output_builtin`
runner fails with the configuration error and an empty write log. -/
theorem claim_C4_witness :
    ("output" ∈ missingProgram.builtins) ∧
    assocLookup sampleEnv.builtin_runners ("output" ++ "_builtin") = Option.none ∧
    ∃ f, run_program_entrypoint sampleEnv missingProgram "main" PyValue.none
          = Except.error f ∧
      f.error = RunError.missingBuiltin ∧ f.writes = [] :=
  ⟨List.mem_cons_self "output" [], rfl,
    claim_C4_missing_builtin sampleEnv missingProgram "main" PyValue.none "output"
      (List.mem_cons_self "output" []) rfl⟩

/-- C5: For an entry point name absent from the program's identifier
table (with the builtin phase able to pass, i.e. every declared builtin
has a runner), `run_program_entrypoint` fails with the resolution error
and no memory write — no Stack and no VM state is written before the
failure surfaces. -/
theorem claim_C5_resolution_error (env : VMEnv) (p : Program) (e : String)
    (i : PyValue)
    (hall : ∀ b ∈ p.builtins, (assocLookup env.builtin_runners (b ++ "_builtin")).isSome)
    (hr : get_by_full_name p.identifiers ["__main__", e] = Option.none) :
    ∃ f, run_program_entrypoint env p e i = Except.error f ∧
      f.error = RunError.resolutionError ∧ f.writes = [] := by
  obtain ⟨s, hs⟩ := buildBuiltinStack_total false env.builtin_runners p.builtins hall
  exact ⟨⟨RunError.resolutionError, []⟩,
    run_program_entrypoint_resolution env p e i s hs hr, rfl, rfl⟩

/-- C5 witness: resolving the entry point `nonexistent` in the concrete
program fails with the resolution error and an empty write log. -/
theorem claim_C5_witness :
    (∀ b ∈ sampleProgram.builtins,
      (assocLookup sampleEnv.builtin_runners (b ++ "_builtin")).isSome) ∧
    get_by_full_name sampleProgram.identifiers ["__main__", "nonexistent"]
      = Option.none ∧
    ∃ f, run_program_entrypoint sampleEnv sampleProgram "nonexistent" PyValue.none
          = Except.error f ∧
      f.error = RunError.resolutionError ∧ f.writes = [] :=
  ⟨by decide, rfl,
    claim_C5_resolution_error sampleEnv sampleProgram "nonexistent" PyValue.none
      (by decide) rfl⟩

/-- C6: When missing builtins are allowed, a declared builtin that lacks
a runner contributes exactly one placeholder word of value 0 to the
Stack. -/
theorem claim_C6_placeholder (rs : List (String × List Word)) (b : String)
    (hmiss : assocLookup rs (b ++ "_builtin") = Option.none) :
    builtin_contribution true rs b = Option.some [Word.felt 0] := by
  rw [builtin_contribution, hmiss]
  rfl

/-- C6 witness: with no runners at all, the builtin `output` contributes
the single placeholder word 0 when missing builtins are allowed. -/
theorem claim_C6_witness :
    assocLookup ([] : List (String × List Word)) ("output" ++ "_builtin")
      = Option.none ∧
    builtin_contribution true [] "output" = Option.some [Word.felt 0] :=
  ⟨rfl, claim_C6_placeholder [] "output" rfl⟩

/-- C7: After the run reaches the end sentinel, the recorded
`original_steps` is the step count at that point — taken before
`end_run`'s bookkeeping (which produced `vm_final` from it) — and trace
padding is configurable: `end_run` with `disable_trace_padding = true`
is the identity, skipping padding entirely. -/
theorem claim_C7_finalizer (env : VMEnv) (p : Program) (e : String)
    (i : PyValue) (out : RunOutcome)
    (h : run_program_entrypoint env p e i = Except.ok out) :
    out.original_steps = out.vm_at_sentinel.current_step ∧
    out.vm_final = end_run false env.trace_ratio out.vm_at_sentinel ∧
    (∀ (vm : VMState) (ratio : Nat), end_run true ratio vm = vm) := by
  obtain ⟨bstack, pcOff, vmEnd, hb, hr, hv, hout⟩ := run_program_entrypoint_ok env p e i out h
  subst hout
  exact ⟨rfl, rfl, fun vm ratio => rfl⟩

/-- C7 witness: the theorem applied to the concrete scenario. -/
theorem claim_C7_witness :
    ∃ out, run_program_entrypoint sampleEnv sampleProgram "main" PyValue.none = Except.ok out ∧
      (out.original_steps = out.vm_at_sentinel.current_step ∧
       out.vm_final = end_run false sampleEnv.trace_ratio out.vm_at_sentinel ∧
       (∀ (vm : VMState) (ratio : Nat), end_run true ratio vm = vm)) :=
  ⟨_, rfl, claim_C7_finalizer sampleEnv sampleProgram "main" PyValue.none _ rfl⟩

/-- C8: Replaying the exact same Program, entry point name and program
input against two fresh VM instances yields identical constructed Stack
contents, identical final step counts and identical output —
`run_program_entrypoint` (which is exactly the run on a fresh instance)
is deterministic in its inputs. -/
theorem claim_C8_deterministic (env : VMEnv) (p : Program) (e : String)
    (i : PyValue) (inst1 inst2 : VMInstance)
    (h1 : inst1 = fresh_instance) (h2 : inst2 = fresh_instance)
    (out1 out2 : RunOutcome)
    (hr1 : run_on_instance env inst1 false p e i = Except.ok out1)
    (hr2 : run_on_instance env inst2 false p e i = Except.ok out2) :
    out1.stack = out2.stack ∧ out1.original_steps = out2.original_steps ∧
    out1.output = out2.output := by
  subst h1
  subst h2
  have heq : out1 = out2 := Except.ok.inj (hr1.symm.trans hr2)
  subst heq
  exact ⟨rfl, rfl, rfl⟩

/-- C8 witness: two runs of the concrete scenario on fresh instances
agree on stack, step count and output. -/
theorem claim_C8_witness :
    (fresh_instance = fresh_instance) ∧
    ∃ out1 out2,
      run_on_instance sampleEnv fresh_instance false sampleProgram "main" PyValue.none
        = Except.ok out1 ∧
      run_on_instance sampleEnv fresh_instance false sampleProgram "main" PyValue.none
        = Except.ok out2 ∧
      (out1.stack = out2.stack ∧ out1.original_steps = out2.original_steps ∧
       out1.output = out2.output) :=
  ⟨rfl, _, _, rfl, rfl,
    claim_C8_deterministic sampleEnv sampleProgram "main" PyValue.none
      fresh_instance fresh_instance rfl rfl _ _ rfl rfl⟩

/-- C9: The hint-evaluation context binds `program_input` to the empty
dict whenever the given program input is falsy (as Python's `or` tests
it: `None`, `{}`, `0`, `""`, ...), and binds a truthy program input
unchanged. -/
theorem claim_C9_program_input (env : VMEnv) (p : Program) (e : String)
    (input : PyValue) (out : RunOutcome)
    (h : run_program_entrypoint env p e input = Except.ok out) :
    (input.truthy = false → out.program_input_binding = PyValue.dict []) ∧
    (input.truthy = true → out.program_input_binding = input) := by
  obtain ⟨bstack, pcOff, vmEnd, hb, hr, hv, hout⟩ :=
    run_program_entrypoint_ok env p e input out h
  subst hout
  constructor
  · intro ht
    simp only [pyOr, ht]
    rfl
  · intro ht
    simp only [pyOr, ht]
    rfl

/-- C9 witness: the theorem applied once with the falsy input `None`
(bound as the empty dict) and once with the truthy input `5` (bound
unchanged). -/
theorem claim_C9_witness :
    (∃ out, run_program_entrypoint sampleEnv sampleProgram "main" PyValue.none
        = Except.ok out ∧
      ((PyValue.none.truthy = false → out.program_input_binding = PyValue.dict []) ∧
       (PyValue.none.truthy = true → out.program_input_binding = PyValue.none))) ∧
    (∃ out, run_program_entrypoint sampleEnv sampleProgram "main" (PyValue.int 5)
        = Except.ok out ∧
      (((PyValue.int 5).truthy = false → out.program_input_binding = PyValue.dict []) ∧
       ((PyValue.int 5).truthy = true → out.program_input_binding = PyValue.int 5))) :=
  ⟨⟨_, rfl, claim_C9_program_input sampleEnv sampleProgram "main" PyValue.none _ rfl⟩,
   ⟨_, rfl, claim_C9_program_input sampleEnv sampleProgram "main" (PyValue.int 5) _ rfl⟩⟩

theorem keyCount_filter_ne (rows : List ResourceRow) (k k' : String × String)
    (hne : k' ≠ k) :
    keyCount (rows.filter (fun r => decide (rowKey r ≠ k))) k' = keyCount rows k' := by
  unfold keyCount
  rw [List.filter_filter]
  congr 1
  apply List.filter_congr
  intro r _
  by_cases h : rowKey r = k'
  · simp [h, hne]
  · simp [h]

theorem dropdup_filter_ne (rows : List ResourceRow) (k : String × String)
    (h : 1 < keyCount rows k) :
    drop_duplicates_keep_false (rows.filter (fun r => decide (rowKey r ≠ k)))
      = drop_duplicates_keep_false rows := by
  unfold drop_duplicates_keep_false
  rw [List.filter_filter]
  apply List.filter_congr
  intro r hr
  by_cases hk : rowKey r = k
  · have h1 : keyCount rows (rowKey r) ≠ 1 := by rw [hk]; omega
    simp [hk]
    rw [hk] at h1
    exact h1
  · have hkc := keyCount_filter_ne rows k (rowKey r) hk
    simp only [ne_eq, decide_not] at hkc
    simp [hk]
    rw [hkc]

/-- C10: In the statistics script, every `(head_branch, test)` pair that
occurs more than once in the concatenated CSV data has all of its rows
removed (none is kept) by `drop_duplicates(keep=False)` before the
per-branch means are computed, so duplicated test measurements
contribute nothing to the reported averages: the averages equal those
computed with the duplicated rows removed from the input. -/
theorem claim_C10_drop_duplicates (rows : List ResourceRow) (k : String × String)
    (h : 1 < keyCount rows k) :
    (drop_duplicates_keep_false rows).filter (fun r => decide (rowKey r = k)) = [] ∧
    ∀ (branch : String) (j : Nat),
      average_summary rows branch j
        = average_summary (rows.filter (fun r => decide (rowKey r ≠ k))) branch j := by
  constructor
  · rw [List.filter_eq_nil_iff]
    intro r hr hk
    unfold drop_duplicates_keep_false at hr
    rw [List.mem_filter] at hr
    have h1 := hr.2
    simp only [decide_eq_true_iff] at h1 hk
    rw [hk] at h1
    omega
  · intro branch j
    unfold average_summary
    rw [dropdup_filter_ne rows k h]

/-- C10 witness: the duplicated pair `("main", "t")` of the concrete
data is fully removed and contributes nothing to the averages. -/
theorem claim_C10_witness :
    1 < keyCount sampleRows ("main", "t") ∧
    ((drop_duplicates_keep_false sampleRows).filter
        (fun r => decide (rowKey r = ("main", "t"))) = [] ∧
     ∀ (branch : String) (j : Nat),
       average_summary sampleRows branch j
         = average_summary (sampleRows.filter
             (fun r => decide (rowKey r ≠ ("main", "t")))) branch j) :=
  ⟨by decide, claim_C10_drop_duplicates sampleRows ("main", "t") (by decide)⟩

end Kakarot
